import Mathlib

/-!
Shallow embedding of the web-stm32-updater DFU engine (`src/usbDfuDevice.js`).

The JS class `usbDfuDevice` drives the ST DFU bootloader over WebUSB control
transfers.  We embed its protocol logic as pure Lean functions:

* transport activity is recorded as a trace of `Ev` events
  (`controlTransferOut` / `controlTransferIn` / the `setTimeout` sleep);
* the device's behaviour is an oracle `Env : Nat → List Nat` giving the 6-byte
  response to the i-th GETSTATUS issued by the operation under study;
* fallible operations return `Except DfuErr`, where `DfuErr` captures the
  information content of the strings thrown by the JS code;
* JS numbers are embedded as `Int`/`Nat`; `%` on JS numbers is truncated
  remainder (`Int.tmod`), and `x % 0` is `NaN` (and `NaN != 0` holds), which we
  encode explicitly at the single site where the divisor can be zero.
-/

namespace StmDfu

/-- A transport-level event: a control transfer out (request, wValue, optional
data payload), a control transfer in (request, requested length), or a
`setTimeout` suspension for the given number of milliseconds.
DFU request codes: DNLOAD = 1, GETSTATUS = 3, CLRSTATUS = 4. -/
inductive Ev where
  | ctrlOut (request value : Nat) (data : Option (List Nat))
  | ctrlIn (request length : Nat)
  | sleep (ms : Nat)
deriving DecidableEq

/-- Errors thrown by the JS code, one constructor per throw site.  The JS code
throws strings; each constructor captures the information content of one of
those strings. -/
inductive DfuErr where
  /-- `getStatus` throw: target reported error ≠ OK or state == STATE_ERROR. -/
  | deviceFault (error state : Nat)
  /-- `program` throw: file size is bigger than flash size. -/
  | imageTooLarge
  /-- `clearStatus` throw or rejected CLRSTATUS transfer. -/
  | clearStatusFailed
  /-- `connect`: `navigator.usb` missing. -/
  | webUsbUnavailable
  /-- `connect`: `requestDevice` rejected. -/
  | requestDeviceFailed
  /-- `connect`: `device.open()` rejected. -/
  | openFailed
  /-- `connect`: `selectConfiguration(1)` rejected. -/
  | selectConfigurationFailed
  /-- `connect`: `claimInterface(0)` rejected. -/
  | claimInterfaceFailed
  /-- `setFlashAndPageSizes`: flash size parses to NaN. -/
  | flashSizeNaN
  /-- `setFlashAndPageSizes`: page size parses to NaN. -/
  | pageSizeNaN
  /-- `setFlashAndPageSizes`: flash size not divisible by 1024. -/
  | flashSizeNot1024
  /-- `setFlashAndPageSizes`: page size not divisible by 4. -/
  | pageSizeNotWordAligned
  /-- `setFlashAndPageSizes`: flash size not divisible by page size. -/
  | flashSizeNotPageMultiple
deriving DecidableEq

/-- Device oracle: the 6-byte payload answered to the i-th GETSTATUS request
issued by the operation being modelled. -/
abbrev Env := Nat → List Nat

/-- `dfuError.OK` -/
def OK : Nat := 0

/-- `dfuState.STATE_ERROR` -/
def STATE_ERROR : Nat := 10

/-- Events produced by one `getStatus()` call (usbDfuDevice.js lines 129-184):
the 6-byte GETSTATUS control transfer in, then the `setTimeout` suspension for
the poll time decoded from byte 1.  The suspension happens before the
error check and before returning. -/
def getStatusEv (resp : List Nat) : List Ev :=
  [Ev.ctrlIn 3 6, Ev.sleep (resp.getD 1 0)]

/-- Result of one `getStatus()` call on response `resp`:
byte 0 is the error code, byte 4 the state code; throws when
`error != dfuError.OK || state == dfuState.STATE_ERROR`, otherwise resolves
with the state. -/
def getStatusRes (resp : List Nat) : Except DfuErr Nat :=
  if resp.getD 0 0 ≠ OK ∨ resp.getD 4 0 = STATE_ERROR then
    Except.error (DfuErr.deviceFault (resp.getD 0 0) (resp.getD 4 0))
  else
    Except.ok (resp.getD 4 0)

/-- A status response which reports no fault: error code OK, state not ERROR. -/
def okResp : List Nat := [0, 0, 0, 0, 5, 0]

/-! ## Configuration (`setFlashAndPageSizes`, usbDfuDevice.js lines 218-271) -/

/-- An argument to `setFlashAndPageSizes`: either an already-parsed JS number
or numeric text (decimal or `0x` hexadecimal). -/
inductive SizeSpec where
  | num (n : Int)
  | str (s : String)

/-- Value of one digit character in the given base, as JS `parseInt` accepts
them (`0`-`9`, `a`-`z`, `A`-`Z`), or `none` if the character is not a digit of
that base. -/
def digitVal (base : Nat) (c : Char) : Option Nat :=
  let v : Option Nat :=
    if '0' ≤ c ∧ c ≤ '9' then some (c.toNat - '0'.toNat)
    else if 'a' ≤ c ∧ c ≤ 'z' then some (c.toNat - 'a'.toNat + 10)
    else if 'A' ≤ c ∧ c ≤ 'Z' then some (c.toNat - 'A'.toNat + 10)
    else none
  match v with
  | some d => if d < base then some d else none
  | none => none

/-- Accumulate the longest prefix of valid digits, as JS `parseInt` does
(parsing stops at the first non-digit). -/
def parseDigitsAux (base : Nat) (acc : Nat) : List Char → Nat
  | [] => acc
  | c :: cs =>
    match digitVal base c with
    | none => acc
    | some d => parseDigitsAux base (acc * base + d) cs

/-- JS `parseInt` digit run: `none` (NaN) when the text begins with no valid
digit, otherwise the value of the longest valid-digit prefix. -/
def parseDigits (base : Nat) : List Char → Option Nat
  | [] => none
  | c :: cs =>
    match digitVal base c with
    | none => none
    | some d => some (parseDigitsAux base d cs)

/-- JS `parseInt(string)`: skip leading whitespace, read an optional sign,
detect a `0x`/`0X` radix-16 prefix (default radix 10), then parse the longest
valid-digit prefix; `none` models a NaN result.  (We model the ASCII
whitespace JS skips; JS also skips other Unicode whitespace.) -/
def jsParseIntStr (s : String) : Option Int :=
  let cs := s.toList.dropWhile fun c =>
    c = ' ' ∨ c = '\t' ∨ c = '\n' ∨ c = '\r'
  let signed : Int × List Char :=
    match cs with
    | '-' :: rest => (-1, rest)
    | '+' :: rest => (1, rest)
    | _ => (1, cs)
  let based : Nat × List Char :=
    match signed.2 with
    | '0' :: 'x' :: rest => (16, rest)
    | '0' :: 'X' :: rest => (16, rest)
    | _ => (10, signed.2)
  match parseDigits based.1 based.2 with
  | none => none
  | some v => some (signed.1 * v)

/-- JS `parseInt` applied to a `SizeSpec`.  A number argument is first
converted to its decimal string and reparsed; for integers of magnitude below
1e21 (all values relevant here) that is the identity. -/
def jsParseInt : SizeSpec → Option Int
  | SizeSpec.num n => some n
  | SizeSpec.str s => jsParseIntStr s

/-- The WebUSB device handle held in `this.device`: only its `opened` flag is
observable to the code under study. -/
structure Dev where
  opened : Bool
deriving DecidableEq

/-- The mutable fields of the `usbDfuDevice` object, plus two instrumentation
counters: how many times `device.close()` and the user disconnect handler
(`dfuDisconnectHandler`) have been invoked. -/
structure OState where
  device : Option Dev
  flashEnd : Int
  pageSize : Int
  closeCount : Nat
  notifyCount : Nat
deriving DecidableEq

/-- The state established by the constructor (usbDfuDevice.js lines 115-125):
`device = null`, `flashEnd = 0x08020000`, `pageSize = 0x80`. -/
def initState : OState :=
  { device := none
    flashEnd := 0x08020000
    pageSize := 0x80
    closeCount := 0
    notifyCount := 0 }

/-- `setFlashAndPageSizes` (usbDfuDevice.js lines 218-271).  JS `%` is the
truncated remainder `Int.tmod`; `flashSize % pageSize` with `pageSize = 0` is
`NaN` in JS and `NaN != 0` holds, hence the explicit `pageSize = 0` disjunct.
Note that `this.flashEnd` is assigned before the page-size checks and
`this.pageSize` before the divisibility check, so a failing call can leave
either or both fields already updated. -/
def setFlashAndPageSizes (flashSizeStr pageSizeStr : SizeSpec) (s : OState) :
    OState × Except DfuErr Unit :=
  match jsParseInt flashSizeStr with
  | none => (s, Except.error DfuErr.flashSizeNaN)
  | some flashSize =>
    match jsParseInt pageSizeStr with
    | none => (s, Except.error DfuErr.pageSizeNaN)
    | some pageSize =>
      if flashSize.tmod 1024 ≠ 0 then
        (s, Except.error DfuErr.flashSizeNot1024)
      else
        let s1 := { s with flashEnd := 0x08000000 + flashSize }
        if pageSize.tmod 4 ≠ 0 then
          (s1, Except.error DfuErr.pageSizeNotWordAligned)
        else
          let s2 := { s1 with pageSize := pageSize }
          if pageSize = 0 ∨ flashSize.tmod pageSize ≠ 0 then
            (s2, Except.error DfuErr.flashSizeNotPageMultiple)
          else
            (s2, Except.ok ())

deriving instance DecidableEq for Except

/-! ## Erase sequencer (`erase`, usbDfuDevice.js lines 320-373) -/

/-- The 5-byte ERASE/SET_ADDRESS-style command payload: an opcode followed by
the 32-bit address in little-endian order.  The JS builds the four address
bytes with 32-bit masks and shifts; for `0 ≤ address < 2^31` (all addresses a
flash mapped at 0x08000000 of realistic size can reach) those operations
coincide with the byte extractions used here. -/
def eraseCmdBytes (address : Int) : List Nat :=
  [0x41, address.toNat % 256, address.toNat / 256 % 256,
   address.toNat / 65536 % 256, address.toNat / 16777216 % 256]

/-- The page loop of `erase` (usbDfuDevice.js lines 329-364): while
`address < this.flashEnd`, send the 5-byte ERASE command buffer via DNLOAD
(request 1, value 0 = command mode), confirm with two `getStatus` calls, and
advance `address` by `this.pageSize`.  `sIdx` indexes the status oracle with
the number of GETSTATUS requests issued so far; a status fault aborts the
loop and propagates.  The progress-handler calls are UI collaborators, not
transport operations, and are not recorded.  For `pageSize ≤ 0` with a
non-empty range the JS loop never terminates; that case is outside this
model (the guard below then stops), and every theorem about `eraseLoop`
assumes `0 < pageSize` or an empty range. -/
def eraseLoop (env : Env) (sIdx : Nat) (address flashEnd pageSize : Int) :
    List Ev × Except DfuErr Unit :=
  if _h : address < flashEnd ∧ 0 < pageSize then
    let cmd : Ev := Ev.ctrlOut 1 0 (some (eraseCmdBytes address))
    let r1 := env sIdx
    match getStatusRes r1 with
    | Except.error e => (cmd :: getStatusEv r1, Except.error e)
    | Except.ok _ =>
      let r2 := env (sIdx + 1)
      match getStatusRes r2 with
      | Except.error e =>
        (cmd :: (getStatusEv r1 ++ getStatusEv r2), Except.error e)
      | Except.ok _ =>
        let rest := eraseLoop env (sIdx + 2) (address + pageSize) flashEnd
          pageSize
        (cmd :: (getStatusEv r1 ++ getStatusEv r2 ++ rest.1), rest.2)
  else ([], Except.ok ())
termination_by (flashEnd - address).toNat
decreasing_by omega

/-- `erase()`: the loop starts at 0x8000000 and runs against `this.flashEnd`
and `this.pageSize`.  Note `erase` issues no CLRSTATUS: `clearStatus` is
called once by `connect` (line 305), not by `erase`. -/
def eraseRun (env : Env) (flashEnd pageSize : Int) :
    List Ev × Except DfuErr Unit :=
  eraseLoop env 0 0x8000000 flashEnd pageSize

/-- The transport trace of one fault-free page-erase iteration at `address`
whose two status confirmations are oracle answers `i` and `i + 1`. -/
def eraseSeg (env : Env) (i : Nat) (address : Int) : List Ev :=
  Ev.ctrlOut 1 0 (some (eraseCmdBytes address)) ::
    (getStatusEv (env i) ++ getStatusEv (env (i + 1)))

/-- Does this event send an ERASE (opcode 0x41) command buffer? -/
def isEraseCmd : Ev → Bool
  | Ev.ctrlOut 1 0 (some (0x41 :: _)) => true
  | _ => false

/-- Is this event a CLRSTATUS (request 4) control transfer? -/
def isClrStatus : Ev → Bool
  | Ev.ctrlOut 4 _ _ => true
  | _ => false

/-- The status oracle reports no fault at any exchange: error code OK and a
state other than ERROR, at every index. -/
def envOk (env : Env) : Prop :=
  ∀ i, (env i).getD 0 0 = 0 ∧ (env i).getD 4 0 ≠ 10

/-! ## Program sequencer (`program`, usbDfuDevice.js lines 376-455) -/

/-- `Math.ceil(fileArr.byteLength / 2048)` (line 400): division by a power of
two is exact in JS floats, so the ceiling equals `(len + 2047) / 2048`. -/
def totalBlocksOf (file : List Nat) : Nat := (file.length + 2047) / 2048

/-- The 2048-byte buffer for block `b` (lines 413-421):
`fileArr.slice(dataStart, dataEnd)` copied into a zero-initialised
`Uint8Array(2048)` — the image bytes `[b*2048, (b+1)*2048)` zero-padded on
the right to 2048 bytes. -/
def blockBytes (file : List Nat) (b : Nat) : List Nat :=
  let s := (file.drop (b * 2048)).take 2048
  s ++ List.replicate (2048 - s.length) 0

/-- The SET_ADDRESS command transfer (lines 385-391): DNLOAD, value 0,
payload `[0x21, 0x00, 0x00, 0x00, 0x08]` — opcode 0x21 followed by
0x08000000 little-endian. -/
def setAddrCmd : Ev := Ev.ctrlOut 1 0 (some [0x21, 0x00, 0x00, 0x00, 0x08])

/-- The block loop of `program` (lines 408-443): for each `block` below
`totalBlocks`, send the 2048-byte buffer via DNLOAD with `value = 2 + block`
and confirm with two `getStatus` calls; a status fault aborts and
propagates. -/
def progLoop (env : Env) (sIdx : Nat) (file : List Nat)
    (totalBlocks block : Nat) : List Ev × Except DfuErr Unit :=
  if block < totalBlocks then
    let cmd : Ev := Ev.ctrlOut 1 (2 + block) (some (blockBytes file block))
    let r1 := env sIdx
    match getStatusRes r1 with
    | Except.error e => (cmd :: getStatusEv r1, Except.error e)
    | Except.ok _ =>
      let r2 := env (sIdx + 1)
      match getStatusRes r2 with
      | Except.error e =>
        (cmd :: (getStatusEv r1 ++ getStatusEv r2), Except.error e)
      | Except.ok _ =>
        let rest := progLoop env (sIdx + 2) file totalBlocks (block + 1)
        (cmd :: (getStatusEv r1 ++ getStatusEv r2 ++ rest.1), rest.2)
  else ([], Except.ok ())
termination_by totalBlocks - block

/-- `program(fileArr)` (lines 376-455): send SET_ADDRESS for 0x08000000 via
DNLOAD value 0, confirm with two `getStatus` calls, THEN compute
`totalBlocks` and fail with the image-too-large error when
`totalBlocks * 2048 > this.flashEnd - 0x08000000`; otherwise run the block
loop (whose status confirmations are oracle answers from index 2 on). -/
def programRun (env : Env) (file : List Nat) (flashEnd : Int) :
    List Ev × Except DfuErr Unit :=
  let r1 := env 0
  match getStatusRes r1 with
  | Except.error e => (setAddrCmd :: getStatusEv r1, Except.error e)
  | Except.ok _ =>
    let r2 := env 1
    match getStatusRes r2 with
    | Except.error e =>
      (setAddrCmd :: (getStatusEv r1 ++ getStatusEv r2), Except.error e)
    | Except.ok _ =>
      if ((totalBlocksOf file : Int) * 2048) > flashEnd - 0x08000000 then
        (setAddrCmd :: (getStatusEv r1 ++ getStatusEv r2),
         Except.error DfuErr.imageTooLarge)
      else
        let rest := progLoop env 2 file (totalBlocksOf file) 0
        (setAddrCmd :: (getStatusEv r1 ++ getStatusEv r2 ++ rest.1), rest.2)

/-- The transport trace of one fault-free block download whose two status
confirmations are oracle answers `i` and `i + 1`. -/
def progSeg (env : Env) (file : List Nat) (i b : Nat) : List Ev :=
  Ev.ctrlOut 1 (2 + b) (some (blockBytes file b)) ::
    (getStatusEv (env i) ++ getStatusEv (env (i + 1)))

/-- Does this event download a data block (DNLOAD with value ≥ 2)? -/
def isBlockCmd : Ev → Bool
  | Ev.ctrlOut 1 (_ + 2) _ => true
  | _ => false

/-- `detach()` (usbDfuDevice.js lines 458-485): send a zero-length DNLOAD
(value 0, no data), then one `getStatus` (oracle index 0), whose fault
(if any) propagates. -/
def detachRun (env : Env) : List Ev × Except DfuErr Unit :=
  let r := env 0
  (Ev.ctrlOut 1 0 none :: getStatusEv r,
   (getStatusRes r).map fun _ => ())

/-- The outcome of each transport step `connect` performs (usbDfuDevice.js
lines 274-317): `usbAvailable` models `navigator.usb` being present; the
other fields tell whether the corresponding awaited promise resolves.
`clearStatusOk` covers both a rejected CLRSTATUS transfer and a non-ok
completion status (lines 202-206). -/
structure ConnEnv where
  usbAvailable : Bool
  requestDeviceOk : Bool
  openOk : Bool
  selectConfOk : Bool
  claimOk : Bool
  clearStatusOk : Bool

/-- `connect()` (usbDfuDevice.js lines 274-317): when WebUSB is absent the
function rejects before touching `this.device`.  Otherwise `this.device` is
assigned the requested (not yet open) device; a successful `open()` makes it
open; `selectConfiguration(1)`, `claimInterface(0)` and `clearStatus()`
follow, any rejection propagating with the state as mutated so far. -/
def connect (env : ConnEnv) (s : OState) : OState × Except DfuErr Unit :=
  if !env.usbAvailable then (s, Except.error DfuErr.webUsbUnavailable)
  else if !env.requestDeviceOk then
    (s, Except.error DfuErr.requestDeviceFailed)
  else
    let s1 := { s with device := some { opened := false } }
    if !env.openOk then (s1, Except.error DfuErr.openFailed)
    else
      let s2 := { s1 with device := some { opened := true } }
      if !env.selectConfOk then
        (s2, Except.error DfuErr.selectConfigurationFailed)
      else if !env.claimOk then
        (s2, Except.error DfuErr.claimInterfaceFailed)
      else if !env.clearStatusOk then
        (s2, Except.error DfuErr.clearStatusFailed)
      else (s2, Except.ok ())

/-- `disconnect()` (usbDfuDevice.js lines 488-506): call `close()` only when
`this.device` is non-null and the device is open; then null the device field
and invoke the user disconnect handler.  The transport `close()` is modelled
as always succeeding. -/
def disconnect (s : OState) : OState :=
  let s1 :=
    match s.device with
    | some d => if d.opened then { s with closeCount := s.closeCount + 1 }
                else s
    | none => s
  { s1 with device := none, notifyCount := s1.notifyCount + 1 }

/-- The environment of one full update run: the connect outcomes plus one
status oracle per status-polling stage (the device's answers to erase's,
program's and detach's GETSTATUS requests, counted per stage). -/
structure RunEnv where
  conn : ConnEnv
  eraseEnv : Env
  progEnv : Env
  detachEnv : Env

/-- `runUpdateSequence(fileArr, flashSizeStr, pageSizeStr)` (usbDfuDevice.js
lines 509-560): configuration, connect, erase, program, detach in sequence,
then disconnect; the `catch` invokes `this.disconnect()` before returning
the rejection.  Erase and program read `this.flashEnd` / `this.pageSize` as
set by the configuration step.  The status-handler calls are UI
collaborators and are not modelled. -/
def runUpdateSequence (file : List Nat) (flashSizeStr pageSizeStr : SizeSpec)
    (env : RunEnv) (s : OState) : OState × Except DfuErr String :=
  let c := setFlashAndPageSizes flashSizeStr pageSizeStr s
  match c.2 with
  | Except.error e => (disconnect c.1, Except.error e)
  | Except.ok _ =>
    let k := connect env.conn c.1
    match k.2 with
    | Except.error e => (disconnect k.1, Except.error e)
    | Except.ok _ =>
      match (eraseRun env.eraseEnv k.1.flashEnd k.1.pageSize).2 with
      | Except.error e => (disconnect k.1, Except.error e)
      | Except.ok _ =>
        match (programRun env.progEnv file k.1.flashEnd).2 with
        | Except.error e => (disconnect k.1, Except.error e)
        | Except.ok _ =>
          match (detachRun env.detachEnv).2 with
          | Except.error e => (disconnect k.1, Except.error e)
          | Except.ok _ => (disconnect k.1, Except.ok "Update Complete")

/-- C5: `getStatus` decodes byte 0 as the error code, byte 1 as the poll
timeout, byte 4 as the state code; bytes 2, 3 and 5 have no influence on the
outcome; it suspends for the decoded poll-timeout duration before returning;
and it fails with a device fault exactly when the error code is not OK or the
state code equals ERROR (10), otherwise it returns the decoded state. -/
theorem getStatus_decodes_bytes_0_1_4_and_faults_iff
    (b0 b1 b2 b3 b4 b5 : Nat) :
    getStatusEv [b0, b1, b2, b3, b4, b5] = [Ev.ctrlIn 3 6, Ev.sleep b1] ∧
    getStatusRes [b0, b1, b2, b3, b4, b5] =
      (if b0 ≠ 0 ∨ b4 = 10 then Except.error (DfuErr.deviceFault b0 b4)
       else Except.ok b4) ∧
    (∀ c2 c3 c5 : Nat,
      getStatusEv [b0, b1, c2, c3, b4, c5] = getStatusEv [b0, b1, b2, b3, b4, b5] ∧
      getStatusRes [b0, b1, c2, c3, b4, c5] = getStatusRes [b0, b1, b2, b3, b4, b5]) := by
  refine ⟨rfl, rfl, fun c2 c3 c5 => ⟨rfl, rfl⟩⟩

/-- Casting compatibility between JS truncated remainder and `Nat` mod. -/
lemma natCast_tmod (f n : Nat) : (f : Int).tmod (n : Int) = ((f % n : Nat) : Int) := by
  rw [Int.tmod_eq_emod (by positivity) (by positivity)]
  push_cast
  rfl

/-- C4 counterexample: the parse step does not reject negative inputs.
`parseInt("-1024")` is `-1024` (not NaN), `-1024 % 1024` is `-0` which equals
`0` in JS, and `-1024 % 128` likewise, so
`setFlashAndPageSizes("-1024", "128")` succeeds, contradicting the claim that
negative inputs such as "-1024" are rejected. -/
theorem setFlashAndPageSizes_accepts_negative_counterexample :
    jsParseInt (SizeSpec.str "-1024") = some (-1024) ∧
    (setFlashAndPageSizes (SizeSpec.str "-1024") (SizeSpec.str "128")
        initState).2 = Except.ok () := by
  exact ⟨by decide, rfl⟩

/-- C4 (amended): `setFlashAndPageSizes` fails with a distinct error exactly
when one of its four rules is violated, checked in order: a value does not
parse as an integer at all (NaN — negative integers are accepted, not
rejected), flash size is not a multiple of 1024 (JS truncated remainder),
page size is not a multiple of 4, or flash size is not an exact multiple of
page size (a zero page size fails here, since `x % 0` is NaN in JS); when all
four rules hold it succeeds. -/
theorem setFlashAndPageSizes_validation_order (fs ps : SizeSpec) (s : OState) :
    (jsParseInt fs = none →
      setFlashAndPageSizes fs ps s = (s, Except.error DfuErr.flashSizeNaN)) ∧
    (∀ f : Int, jsParseInt fs = some f → jsParseInt ps = none →
      setFlashAndPageSizes fs ps s = (s, Except.error DfuErr.pageSizeNaN)) ∧
    (∀ f p : Int, jsParseInt fs = some f → jsParseInt ps = some p →
      f.tmod 1024 ≠ 0 →
      setFlashAndPageSizes fs ps s = (s, Except.error DfuErr.flashSizeNot1024)) ∧
    (∀ f p : Int, jsParseInt fs = some f → jsParseInt ps = some p →
      f.tmod 1024 = 0 → p.tmod 4 ≠ 0 →
      setFlashAndPageSizes fs ps s =
        ({ s with flashEnd := 0x08000000 + f },
         Except.error DfuErr.pageSizeNotWordAligned)) ∧
    (∀ f p : Int, jsParseInt fs = some f → jsParseInt ps = some p →
      f.tmod 1024 = 0 → p.tmod 4 = 0 → (p = 0 ∨ f.tmod p ≠ 0) →
      setFlashAndPageSizes fs ps s =
        ({ s with flashEnd := 0x08000000 + f, pageSize := p },
         Except.error DfuErr.flashSizeNotPageMultiple)) ∧
    (∀ f p : Int, jsParseInt fs = some f → jsParseInt ps = some p →
      f.tmod 1024 = 0 → p.tmod 4 = 0 → p ≠ 0 → f.tmod p = 0 →
      setFlashAndPageSizes fs ps s =
        ({ s with flashEnd := 0x08000000 + f, pageSize := p },
         Except.ok ())) := by
  refine ⟨?_, ?_, ?_, ?_, ?_, ?_⟩ <;> intros <;>
    simp_all [setFlashAndPageSizes]

/-- C4 witness: a concrete valid pair taken through the amended theorem. -/
theorem setFlashAndPageSizes_validation_order_witness :
    jsParseInt (SizeSpec.str "0x20000") = some 131072 ∧
    setFlashAndPageSizes (SizeSpec.str "0x20000") (SizeSpec.num 128) initState =
      ({ initState with flashEnd := 0x08000000 + 131072, pageSize := 128 },
       Except.ok ()) :=
  ⟨by decide,
   (setFlashAndPageSizes_validation_order (SizeSpec.str "0x20000")
        (SizeSpec.num 128) initState).2.2.2.2.2 131072 128 (by decide) rfl
      (by decide) (by decide) (by decide) (by decide)⟩

/-- C6: for every (flashSize, pageSize) pair with `flashSize % 1024 == 0`,
`pageSize % 4 == 0` and `flashSize % pageSize == 0` — supplied in any form
that `parseInt` maps to those values: decimal text, hexadecimal text, or an
integer — `setFlashAndPageSizes` succeeds, and afterwards
`flashEnd = 0x08000000 + flashSize` and the stored page size is `pageSize`. -/
theorem setFlashAndPageSizes_valid_pairs_succeed (fs ps : SizeSpec)
    (f p : Nat) (s : OState)
    (hf : jsParseInt fs = some (f : Int)) (hp : jsParseInt ps = some (p : Int))
    (h1 : f % 1024 = 0) (h2 : p % 4 = 0) (h3 : 0 < p) (h4 : f % p = 0) :
    setFlashAndPageSizes fs ps s =
      ({ s with flashEnd := 0x08000000 + (f : Int), pageSize := (p : Int) },
       Except.ok ()) := by
  have t1 : (f : Int).tmod 1024 = 0 := by
    rw [show ((1024 : Int) = ((1024 : Nat) : Int)) from rfl, natCast_tmod]
    exact_mod_cast h1
  have t2 : (p : Int).tmod 4 = 0 := by
    rw [show ((4 : Int) = ((4 : Nat) : Int)) from rfl, natCast_tmod]
    exact_mod_cast h2
  have t3 : (p : Int) ≠ 0 := by exact_mod_cast h3.ne'
  have t4 : (f : Int).tmod (p : Int) = 0 := by
    rw [natCast_tmod]
    exact_mod_cast h4
  simp [setFlashAndPageSizes, hf, hp, t1, t2, t3, t4]

/-- C6 witness: flashSize 131072 as decimal text, pageSize 0x80 as hex text. -/
theorem setFlashAndPageSizes_valid_pairs_succeed_witness :
    jsParseInt (SizeSpec.str "131072") = some ((131072 : Nat) : Int) ∧
    jsParseInt (SizeSpec.str "0x80") = some ((128 : Nat) : Int) ∧
    setFlashAndPageSizes (SizeSpec.str "131072") (SizeSpec.str "0x80")
        initState =
      ({ initState with
          flashEnd := 0x08000000 + ((131072 : Nat) : Int)
          pageSize := ((128 : Nat) : Int) }, Except.ok ()) :=
  ⟨by decide, by decide,
   setFlashAndPageSizes_valid_pairs_succeed (SizeSpec.str "131072")
     (SizeSpec.str "0x80") 131072 128 initState (by decide) (by decide)
     (by decide) (by decide) (by decide) (by decide)⟩

/-- C9: `setFlashAndPageSizes` is not atomic on failure: when the flash size
parses and is a multiple of 1024 but the page-size alignment rule fails, the
call fails yet `flashEnd` has already been set to `0x08000000 + flashSize`
(and `pageSize` is untouched); when only the final divisibility rule fails,
both `flashEnd` and `pageSize` have already been updated. -/
theorem setFlashAndPageSizes_not_atomic (fs ps : SizeSpec) (s : OState) :
    (∀ f p : Int, jsParseInt fs = some f → jsParseInt ps = some p →
      f.tmod 1024 = 0 → p.tmod 4 ≠ 0 →
      (setFlashAndPageSizes fs ps s).2 =
          Except.error DfuErr.pageSizeNotWordAligned ∧
      (setFlashAndPageSizes fs ps s).1.flashEnd = 0x08000000 + f ∧
      (setFlashAndPageSizes fs ps s).1.pageSize = s.pageSize) ∧
    (∀ f p : Int, jsParseInt fs = some f → jsParseInt ps = some p →
      f.tmod 1024 = 0 → p.tmod 4 = 0 → (p = 0 ∨ f.tmod p ≠ 0) →
      (setFlashAndPageSizes fs ps s).2 =
          Except.error DfuErr.flashSizeNotPageMultiple ∧
      (setFlashAndPageSizes fs ps s).1.flashEnd = 0x08000000 + f ∧
      (setFlashAndPageSizes fs ps s).1.pageSize = p) := by
  refine ⟨?_, ?_⟩ <;> intros <;>
    simp_all [setFlashAndPageSizes]

/-- C9 witness: flash 1024 with page 3 (alignment fails after `flashEnd` was
updated), and flash 2048 with page 1536 (divisibility fails after both fields
were updated). -/
theorem setFlashAndPageSizes_not_atomic_witness :
    ((setFlashAndPageSizes (SizeSpec.str "1024") (SizeSpec.str "3")
        initState).2 = Except.error DfuErr.pageSizeNotWordAligned ∧
      (setFlashAndPageSizes (SizeSpec.str "1024") (SizeSpec.str "3")
        initState).1.flashEnd = 0x08000000 + 1024 ∧
      (setFlashAndPageSizes (SizeSpec.str "1024") (SizeSpec.str "3")
        initState).1.pageSize = initState.pageSize) ∧
    ((setFlashAndPageSizes (SizeSpec.str "2048") (SizeSpec.str "1536")
        initState).2 = Except.error DfuErr.flashSizeNotPageMultiple ∧
      (setFlashAndPageSizes (SizeSpec.str "2048") (SizeSpec.str "1536")
        initState).1.flashEnd = 0x08000000 + 2048 ∧
      (setFlashAndPageSizes (SizeSpec.str "2048") (SizeSpec.str "1536")
        initState).1.pageSize = 1536) :=
  ⟨(setFlashAndPageSizes_not_atomic (SizeSpec.str "1024") (SizeSpec.str "3")
        initState).1 1024 3 (by decide) (by decide) (by decide) (by decide),
   (setFlashAndPageSizes_not_atomic (SizeSpec.str "2048")
        (SizeSpec.str "1536") initState).2 2048 1536 (by decide) (by decide)
     (by decide) (by decide) (by decide)⟩

/-- Under a fault-free oracle every `getStatus` resolves with the state. -/
lemma getStatusRes_ok_of_envOk {env : Env} (h : envOk env) (i : Nat) :
    getStatusRes (env i) = Except.ok ((env i).getD 4 0) := by
  have hi := h i
  have hcond : ¬((env i).getD 0 0 ≠ OK ∨ (env i).getD 4 0 = STATE_ERROR) := by
    simp only [OK, STATE_ERROR]
    push_neg
    exact hi
  simp only [getStatusRes, if_neg hcond]

/-- Fault-free run of the page loop: with a fault-free oracle, a positive
page size and bounds pinning the iteration count to `n`, the loop's trace is
the concatenation of the `n` per-page segments and the result is success. -/
lemma eraseLoop_trace (env : Env) (hok : envOk env) (p : Int) (hp : 0 < p) :
    ∀ (n : Nat) (sIdx : Nat) (address flashEnd : Int),
      flashEnd ≤ address + n * p →
      (∀ k : Nat, k < n → address + k * p < flashEnd) →
      eraseLoop env sIdx address flashEnd p =
        ((List.range n).flatMap fun k =>
            eraseSeg env (sIdx + 2 * k) (address + k * p),
         Except.ok ()) := by
  intro n
  induction n with
  | zero =>
    intro sIdx address flashEnd h1 h2
    rw [eraseLoop.eq_def]
    have hna : ¬(address < flashEnd ∧ 0 < p) := by
      push_cast at h1
      intro hc
      omega
    rw [dif_neg hna]
    simp
  | succ m ih =>
    intro sIdx address flashEnd h1 h2
    have h0 : address < flashEnd := by
      have := h2 0 (Nat.succ_pos m)
      simpa using this
    have h1' : flashEnd ≤ (address + p) + (m : Int) * p := by
      push_cast at h1
      ring_nf at h1 ⊢
      linarith
    have h2' : ∀ k : Nat, k < m → (address + p) + (k : Int) * p < flashEnd := by
      intro k hk
      have := h2 (k + 1) (by omega)
      push_cast at this
      ring_nf at this ⊢
      linarith
    rw [eraseLoop.eq_def, dif_pos ⟨h0, hp⟩]
    simp only [getStatusRes_ok_of_envOk hok sIdx,
      getStatusRes_ok_of_envOk hok (sIdx + 1),
      ih (sIdx + 2) (address + p) flashEnd h1' h2']
    rw [List.range_succ_eq_map, List.flatMap_cons]
    have hmap : (List.map Nat.succ (List.range m)).flatMap
        (fun k => eraseSeg env (sIdx + 2 * k) (address + k * p)) =
        (List.range m).flatMap
          (fun k => eraseSeg env (sIdx + 2 + 2 * k) (address + p + k * p)) := by
      rw [List.flatMap_map]
      refine List.flatMap_congr fun k _ => ?_
      have e1 : sIdx + 2 * (k + 1) = sIdx + 2 + 2 * k := by ring
      have e2 : address + ((k : Nat) + 1 : Int) * p =
          address + p + (k : Int) * p := by ring
      simp only [Nat.succ_eq_add_one, Function.comp]
      rw [show ((k + 1 : Nat) : Int) = ((k : Nat) : Int) + 1 from by
        push_cast
        ring]
      rw [e1, e2]
    rw [hmap]
    simp [eraseSeg, List.append_assoc]

/-- No event the erase loop ever emits, under any oracle, is a CLRSTATUS
transfer.  (`fuel` bounds the measure `(flashEnd - address).toNat`.) -/
lemma eraseLoop_no_clrstatus (env : Env) :
    ∀ (fuel : Nat) (sIdx : Nat) (address flashEnd pageSize : Int),
      (flashEnd - address).toNat ≤ fuel →
      ∀ e ∈ (eraseLoop env sIdx address flashEnd pageSize).1,
        isClrStatus e = false := by
  intro fuel
  induction fuel with
  | zero =>
    intro sIdx address flashEnd pageSize hf
    rw [eraseLoop.eq_def]
    have hng : ¬(address < flashEnd ∧ 0 < pageSize) := by omega
    rw [dif_neg hng]
    simp
  | succ m ih =>
    intro sIdx address flashEnd pageSize hf
    rw [eraseLoop.eq_def]
    by_cases hg : address < flashEnd ∧ 0 < pageSize
    · rw [dif_pos hg]
      have hm : (flashEnd - (address + pageSize)).toNat ≤ m := by omega
      intro e he
      dsimp only at he
      rcases hcase1 : getStatusRes (env sIdx) with e1 | s1 <;>
        rw [hcase1] at he
      · simp only [getStatusEv, List.mem_cons, List.not_mem_nil,
          or_false] at he
        rcases he with rfl | rfl | rfl <;> rfl
      · rcases hcase2 : getStatusRes (env (sIdx + 1)) with e2 | s2 <;>
          rw [hcase2] at he
        · simp only [getStatusEv, List.mem_cons, List.mem_append,
            List.not_mem_nil, or_false] at he
          rcases he with rfl | (rfl | rfl) | (rfl | rfl) <;> rfl
        · simp only [getStatusEv, List.mem_cons, List.mem_append,
            List.not_mem_nil, or_false] at he
          rcases he with rfl | ((rfl | rfl) | (rfl | rfl)) | hmem
          · rfl
          · rfl
          · rfl
          · rfl
          · rfl
          · exact ih (sIdx + 2) (address + pageSize) flashEnd pageSize hm e
              hmem
    · rw [dif_neg hg]
      simp

/-- Count of erase commands in one fault-free page segment. -/
lemma countP_isEraseCmd_eraseSeg (env : Env) (i : Nat) (address : Int) :
    (eraseSeg env i address).countP isEraseCmd = 1 := by
  simp [eraseSeg, eraseCmdBytes, getStatusEv, List.countP_cons,
    List.countP_append, isEraseCmd]

/-- C7: when all status confirmations succeed, `erase` for
`flashEnd = 0x08000000 + flashSize` issues exactly `flashSize / pageSize`
ERASE commands, one per page address `0x08000000 + k * pageSize` for
`k < flashSize / pageSize`, each a 5-byte `[0x41, address LE]` buffer
followed by exactly two status confirmations (the per-page segment
`eraseSeg`); for `flashSize = 0` it performs zero iterations and succeeds. -/
theorem erase_trace_all_pages (env : Env) (flashSize pageSize : Nat)
    (hok : envOk env) (hp : 0 < pageSize) (hd : pageSize ∣ flashSize) :
    eraseRun env (0x8000000 + (flashSize : Int)) (pageSize : Int) =
      ((List.range (flashSize / pageSize)).flatMap fun k =>
          eraseSeg env (2 * k) (0x8000000 + (k : Int) * (pageSize : Int)),
       Except.ok ()) ∧
    (eraseRun env (0x8000000 + (flashSize : Int)) (pageSize : Int)).1.countP
        isEraseCmd = flashSize / pageSize ∧
    (flashSize = 0 →
      eraseRun env (0x8000000 + (flashSize : Int)) (pageSize : Int) =
        ([], Except.ok ())) := by
  have hpz : (0 : Int) < (pageSize : Int) := by exact_mod_cast hp
  have hmul : (flashSize / pageSize) * pageSize = flashSize :=
    Nat.div_mul_cancel hd
  have hcast : ((flashSize / pageSize : Nat) : Int) * (pageSize : Int) =
      (flashSize : Int) := by
    exact_mod_cast congrArg (Nat.cast : Nat → Int) hmul
  have h1 : (0x8000000 : Int) + (flashSize : Int) ≤
      0x8000000 + ((flashSize / pageSize : Nat) : Int) * (pageSize : Int) := by
    rw [hcast]
  have h2 : ∀ k : Nat, k < flashSize / pageSize →
      (0x8000000 : Int) + (k : Int) * (pageSize : Int) <
        0x8000000 + (flashSize : Int) := by
    intro k hk
    have hkk : (k + 1) * pageSize ≤ flashSize := by
      have h := Nat.mul_le_mul_right pageSize (Nat.succ_le_of_lt hk)
      rwa [hmul] at h
    have h3 : k * pageSize < flashSize :=
      calc k * pageSize < k * pageSize + pageSize :=
            Nat.lt_add_of_pos_right hp
        _ = (k + 1) * pageSize := by ring
        _ ≤ flashSize := hkk
    have h4 : ((k * pageSize : Nat) : Int) < ((flashSize : Nat) : Int) := by
      exact_mod_cast h3
    push_cast at h4
    exact add_lt_add_left h4 _
  have htr := eraseLoop_trace env hok (pageSize : Int) hpz
    (flashSize / pageSize) 0 0x8000000 (0x8000000 + (flashSize : Int)) h1 h2
  unfold eraseRun
  simp only [Nat.zero_add] at htr
  refine ⟨htr, ?_, ?_⟩
  · rw [htr]
    simp only [List.countP_flatMap]
    have hone : ∀ k ∈ List.range (flashSize / pageSize),
        (List.countP isEraseCmd ∘ fun k =>
          eraseSeg env (2 * k)
            (0x8000000 + (k : Int) * (pageSize : Int))) k = 1 := by
      intro k _
      simp [Function.comp, countP_isEraseCmd_eraseSeg]
    rw [List.map_congr_left hone]
    simp [List.map_const', List.sum_replicate, List.length_range]
  · intro h0
    subst h0
    simp only [Nat.zero_div, List.range_zero, List.flatMap_nil] at htr
    simpa using htr

/-- The constant fault-free oracle satisfies `envOk`. -/
lemma envOk_const_okResp : envOk (fun _ => okResp) := by
  intro i
  show okResp.getD 0 0 = 0 ∧ okResp.getD 4 0 ≠ 10
  exact ⟨rfl, by decide⟩

/-- C7 witness: flashSize 131072 and pageSize 128 under the fault-free
oracle; the theorem yields exactly 131072 / 128 = 1024 erase commands. -/
theorem erase_trace_all_pages_witness :
    envOk (fun _ => okResp) ∧ 0 < 128 ∧ 128 ∣ 131072 ∧
    (eraseRun (fun _ => okResp) (0x8000000 + ((131072 : Nat) : Int))
        ((128 : Nat) : Int)).1.countP isEraseCmd = 131072 / 128 :=
  ⟨envOk_const_okResp, by decide, by decide,
   (erase_trace_all_pages (fun _ => okResp) 131072 128 envOk_const_okResp
       (by decide) (by decide)).2.1⟩

/-- C3 counterexample: for the one-page geometry
`flashEnd = 0x08000000 + 128`, `pageSize = 128` under a fault-free oracle,
the FIRST transport operation performed by `erase` is the ERASE command
buffer `[0x41, 00, 00, 00, 08]` sent via DNLOAD — not a CLRSTATUS transfer —
refuting the claim that erase begins by issuing a clear-status command. -/
theorem erase_first_op_not_clrstatus_counterexample :
    (eraseRun (fun _ => okResp) (0x8000000 + 128) 128).1.head? =
      some (Ev.ctrlOut 1 0 (some [0x41, 0x00, 0x00, 0x00, 0x08])) ∧
    isClrStatus (Ev.ctrlOut 1 0 (some [0x41, 0x00, 0x00, 0x00, 0x08])) =
      false := by
  constructor
  · rw [eraseRun, eraseLoop.eq_def]
    rw [dif_pos (by norm_num :
      (0x8000000 : Int) < 0x8000000 + 128 ∧ (0 : Int) < 128)]
    dsimp only
    split <;> simp [eraseCmdBytes]
  · rfl

/-- C3 (amended): `erase` issues no clear-status command at all — under every
oracle and geometry its trace contains no CLRSTATUS transfer — and for a
non-empty range with positive page size its first transport operation is the
ERASE command buffer for the first page, 0x08000000.  (`clearStatus` is
instead invoked once by `connect`, before `erase` runs.) -/
theorem erase_issues_no_clrstatus (env : Env) (flashEnd pageSize : Int) :
    (∀ e ∈ (eraseRun env flashEnd pageSize).1, isClrStatus e = false) ∧
    (0x8000000 < flashEnd → 0 < pageSize →
      (eraseRun env flashEnd pageSize).1.head? =
        some (Ev.ctrlOut 1 0 (some (eraseCmdBytes 0x8000000)))) := by
  constructor
  · exact eraseLoop_no_clrstatus env (flashEnd - 0x8000000).toNat 0 0x8000000
      flashEnd pageSize (le_refl _)
  · intro hf hp
    rw [eraseRun, eraseLoop.eq_def, dif_pos ⟨hf, hp⟩]
    dsimp only
    split
    · simp
    · split <;> simp

/-- C3 witness: the amended theorem applied to the one-page geometry. -/
theorem erase_issues_no_clrstatus_witness :
    ((0x8000000 : Int) < 0x8000000 + 128 ∧ (0 : Int) < 128) ∧
    (eraseRun (fun _ => okResp) (0x8000000 + 128) 128).1.head? =
      some (Ev.ctrlOut 1 0 (some (eraseCmdBytes 0x8000000))) :=
  ⟨⟨by norm_num, by norm_num⟩,
   (erase_issues_no_clrstatus (fun _ => okResp) (0x8000000 + 128) 128).2
     (by norm_num) (by norm_num)⟩

/-- Fault-free run of the block loop: from block `b` with `n` blocks left,
the trace is the concatenation of the `n` block segments and the result is
success. -/
lemma progLoop_trace (env : Env) (hok : envOk env) (file : List Nat)
    (totalBlocks : Nat) :
    ∀ (n : Nat) (sIdx b : Nat), b + n = totalBlocks →
      progLoop env sIdx file totalBlocks b =
        ((List.range n).flatMap fun k =>
            progSeg env file (sIdx + 2 * k) (b + k),
         Except.ok ()) := by
  intro n
  induction n with
  | zero =>
    intro sIdx b hb
    rw [progLoop.eq_def, if_neg (by omega)]
    simp
  | succ m ih =>
    intro sIdx b hb
    rw [progLoop.eq_def, if_pos (by omega)]
    simp only [getStatusRes_ok_of_envOk hok sIdx,
      getStatusRes_ok_of_envOk hok (sIdx + 1),
      ih (sIdx + 2) (b + 1) (by omega)]
    rw [List.range_succ_eq_map, List.flatMap_cons]
    have hmap : (List.map Nat.succ (List.range m)).flatMap
        (fun k => progSeg env file (sIdx + 2 * k) (b + k)) =
        (List.range m).flatMap
          (fun k => progSeg env file (sIdx + 2 + 2 * k) (b + 1 + k)) := by
      rw [List.flatMap_map]
      refine List.flatMap_congr fun k _ => ?_
      simp only [Nat.succ_eq_add_one, Function.comp]
      rw [show sIdx + 2 * (k + 1) = sIdx + 2 + 2 * k from by ring,
        show b + (k + 1) = b + 1 + k from by ring]
    rw [hmap]
    simp [progSeg, List.append_assoc]

/-- Every data block buffer is exactly 2048 bytes long. -/
lemma blockBytes_length (file : List Nat) (b : Nat) :
    (blockBytes file b).length = 2048 := by
  simp only [blockBytes, List.length_append, List.length_replicate,
    List.length_take, List.length_drop]
  omega

/-- Byte `i` of block `b` is image byte `b*2048 + i` when that exists and a
padding zero otherwise. -/
lemma blockBytes_getD (file : List Nat) (b i : Nat) (hi : i < 2048) :
    (blockBytes file b).getD i 0 =
      if b * 2048 + i < file.length then file.getD (b * 2048 + i) 0
      else 0 := by
  simp only [blockBytes, List.getD_eq_getElem?_getD, List.getElem?_append,
    List.length_take, List.length_drop]
  by_cases hc : i < min 2048 (file.length - b * 2048)
  · rw [if_pos hc]
    rw [List.getElem?_take, if_pos (by omega), List.getElem?_drop]
    rw [if_pos (by omega)]
  · rw [if_neg hc]
    have hrep : ∀ j : Nat,
        (List.replicate (2048 - min 2048 (file.length - b * 2048))
          (0 : Nat))[j]?.getD 0 = 0 := by
      intro j
      rcases Nat.lt_or_ge j (2048 - min 2048 (file.length - b * 2048)) with
        hj | hj
      · rw [List.getElem?_replicate, if_pos hj]
        rfl
      · rw [List.getElem?_eq_none (by simpa using hj)]
        rfl
    rw [hrep]
    rw [if_neg (by omega)]

/-- C8 (amended): for every image that fits in flash, `program` sends
`totalBlocks = ceil(imageLength / 2048)` data blocks via DNLOAD with
`value = b + 2`, each 2048 bytes, where byte `i` of block `b` is image byte
`b*2048 + i` when it exists and a padding zero otherwise (so the final block
of a 5000-byte image carries 904 real bytes and 1144 padding zeros — not
904 padding zeros as the claim's parenthetical states). -/
theorem program_blocks (env : Env) (file : List Nat) (flashEnd : Int)
    (hok : envOk env)
    (hfit : ((totalBlocksOf file : Int) * 2048) ≤ flashEnd - 0x08000000) :
    programRun env file flashEnd =
      (setAddrCmd :: (getStatusEv (env 0) ++ getStatusEv (env 1) ++
          (List.range (totalBlocksOf file)).flatMap fun b =>
            progSeg env file (2 + 2 * b) b),
       Except.ok ()) ∧
    (∀ b : Nat, (blockBytes file b).length = 2048) ∧
    (∀ b i : Nat, i < 2048 → (blockBytes file b).getD i 0 =
      if b * 2048 + i < file.length then file.getD (b * 2048 + i) 0
      else 0) := by
  refine ⟨?_, blockBytes_length file,
    fun b i hi => blockBytes_getD file b i hi⟩
  have hloop := progLoop_trace env hok file (totalBlocksOf file)
    (totalBlocksOf file) 2 0 (by omega)
  simp only [Nat.zero_add] at hloop
  simp only [programRun, getStatusRes_ok_of_envOk hok 0,
    getStatusRes_ok_of_envOk hok 1, hloop]
  rw [if_neg (not_lt.mpr hfit)]

/-- C8 witness: an image of exactly 4096 bytes with flashSize 131072 yields
exactly 2 blocks (values 2 and 3 via `progSeg`). -/
theorem program_blocks_witness :
    envOk (fun _ => okResp) ∧
    totalBlocksOf (List.replicate 4096 7) = 2 ∧
    ((totalBlocksOf (List.replicate 4096 7) : Int) * 2048) ≤
      (0x08000000 + 131072) - 0x08000000 ∧
    programRun (fun _ => okResp) (List.replicate 4096 7)
        (0x08000000 + 131072) =
      (setAddrCmd :: (getStatusEv okResp ++ getStatusEv okResp ++
          (List.range (totalBlocksOf (List.replicate 4096 7))).flatMap
            fun b =>
              progSeg (fun _ => okResp) (List.replicate 4096 7) (2 + 2 * b)
                b),
       Except.ok ()) :=
  ⟨envOk_const_okResp, by rw [totalBlocksOf, List.length_replicate],
   by rw [totalBlocksOf, List.length_replicate]; norm_num,
   (program_blocks (fun _ => okResp) (List.replicate 4096 7)
       (0x08000000 + 131072) envOk_const_okResp
       (by rw [totalBlocksOf, List.length_replicate]; norm_num)).1⟩

/-- C8 counterexample: for the 5000-byte all-ones image, `totalBlocks` is
indeed 3, but the third block is 904 real bytes followed by 1144 padding
zero bytes; its number of padding zeros is 1144, not 904 as the claim's
parenthetical "(4096 real bytes + 904 padding zero bytes)" asserts. -/
theorem program_third_block_padding_counterexample :
    totalBlocksOf (List.replicate 5000 1) = 3 ∧
    blockBytes (List.replicate 5000 1) 2 =
      List.replicate 904 1 ++ List.replicate 1144 0 ∧
    ((blockBytes (List.replicate 5000 1) 2).countP fun x => x = 0) = 1144 ∧
    (1144 : Nat) ≠ 904 := by
  have hb : blockBytes (List.replicate 5000 1) 2 =
      List.replicate 904 1 ++ List.replicate 1144 0 := by
    show (((List.replicate 5000 1).drop (2 * 2048)).take 2048) ++
        List.replicate
          (2048 -
            (((List.replicate 5000 1).drop (2 * 2048)).take 2048).length)
          0 =
      List.replicate 904 1 ++ List.replicate 1144 0
    rw [List.drop_replicate, List.take_replicate, List.length_replicate]
    norm_num
  refine ⟨by rw [totalBlocksOf, List.length_replicate], hb, ?_, by decide⟩
  rw [hb, List.countP_append, List.countP_replicate,
    List.countP_replicate]
  decide

/-- C2 (amended): when the image's rounded-up size exceeds the flash size,
`program` fails with the image-too-large error AFTER issuing the SET_ADDRESS
command and its two status confirmations, and before any data block: the
whole trace is exactly the SET_ADDRESS exchange and contains no block
download. -/
theorem program_too_large_after_set_address (env : Env) (file : List Nat)
    (flashEnd : Int) (hok : envOk env)
    (hbig : flashEnd - 0x08000000 < (totalBlocksOf file : Int) * 2048) :
    programRun env file flashEnd =
      (setAddrCmd :: (getStatusEv (env 0) ++ getStatusEv (env 1)),
       Except.error DfuErr.imageTooLarge) ∧
    (programRun env file flashEnd).1.countP isBlockCmd = 0 := by
  have h1 : programRun env file flashEnd =
      (setAddrCmd :: (getStatusEv (env 0) ++ getStatusEv (env 1)),
       Except.error DfuErr.imageTooLarge) := by
    simp only [programRun, getStatusRes_ok_of_envOk hok 0,
      getStatusRes_ok_of_envOk hok 1]
    rw [if_pos hbig]
  refine ⟨h1, ?_⟩
  rw [h1]
  simp [setAddrCmd, getStatusEv, isBlockCmd, List.countP_cons,
    List.countP_append]

/-- C2 counterexample: for flashSize 131072 and a 135168-byte image,
`program` does fail with the image-too-large error, but its trace is NOT
empty: the first transport operation is the SET_ADDRESS command, refuting
the claim that the failure occurs before any control transfer is issued. -/
theorem program_too_large_counterexample :
    (programRun (fun _ => okResp) (List.replicate 135168 0)
        (0x08000000 + 131072)).2 = Except.error DfuErr.imageTooLarge ∧
    (programRun (fun _ => okResp) (List.replicate 135168 0)
        (0x08000000 + 131072)).1.head? = some setAddrCmd ∧
    (programRun (fun _ => okResp) (List.replicate 135168 0)
        (0x08000000 + 131072)).1 ≠ [] := by
  have h1 : programRun (fun _ => okResp) (List.replicate 135168 0)
      (0x08000000 + 131072) =
      (setAddrCmd :: (getStatusEv okResp ++ getStatusEv okResp),
       Except.error DfuErr.imageTooLarge) := by
    simp only [programRun, getStatusRes_ok_of_envOk envOk_const_okResp 0,
      getStatusRes_ok_of_envOk envOk_const_okResp 1]
    rw [if_pos (by rw [totalBlocksOf, List.length_replicate]; norm_num)]
  refine ⟨by rw [h1], by rw [h1]; rfl, by rw [h1]; simp⟩

/-- C2 witness: the amended theorem applied to flashSize 131072 and the
135168-byte image. -/
theorem program_too_large_after_set_address_witness :
    envOk (fun _ => okResp) ∧
    ((0x08000000 + 131072 : Int) - 0x08000000 <
      (totalBlocksOf (List.replicate 135168 0) : Int) * 2048) ∧
    programRun (fun _ => okResp) (List.replicate 135168 0)
        (0x08000000 + 131072) =
      (setAddrCmd :: (getStatusEv okResp ++ getStatusEv okResp),
       Except.error DfuErr.imageTooLarge) :=
  ⟨envOk_const_okResp,
   by rw [totalBlocksOf, List.length_replicate]; norm_num,
   (program_too_large_after_set_address (fun _ => okResp)
       (List.replicate 135168 0) (0x08000000 + 131072) envOk_const_okResp
       (by rw [totalBlocksOf, List.length_replicate]; norm_num)).1⟩

/-- State effect of one `disconnect`: device nulled, notification fired,
close performed exactly when the device was present and open. -/
lemma disconnect_state (s : OState) :
    (disconnect s).device = none ∧
    (disconnect s).notifyCount = s.notifyCount + 1 ∧
    (disconnect s).closeCount = s.closeCount +
      (match s.device with
       | some d => if d.opened then 1 else 0
       | none => 0) := by
  rcases s with ⟨dev, fe, ps, cc, nc⟩
  rcases dev with _ | ⟨⟨op⟩⟩
  · simp [disconnect]
  · cases op <;> simp [disconnect]

/-- `setFlashAndPageSizes` never touches the device field or the
instrumentation counters. -/
lemma setFlashAndPageSizes_preserves (fs ps : SizeSpec) (s : OState) :
    (setFlashAndPageSizes fs ps s).1.device = s.device ∧
    (setFlashAndPageSizes fs ps s).1.closeCount = s.closeCount ∧
    (setFlashAndPageSizes fs ps s).1.notifyCount = s.notifyCount := by
  unfold setFlashAndPageSizes
  split
  · simp
  · split
    · simp
    · split
      · simp
      · split
        · simp
        · split <;> simp

/-- After `requestDevice` resolves, `connect` leaves the state with a device
whose open flag is the outcome of `open()`, whatever happens afterwards. -/
lemma connect_state (env : ConnEnv) (s : OState)
    (husb : env.usbAvailable = true) (hreq : env.requestDeviceOk = true) :
    (connect env s).1 = { s with device := some { opened := env.openOk } } := by
  unfold connect
  rw [husb, hreq]
  cases hopen : env.openOk
  · simp
  · simp only [Bool.not_true, Bool.false_eq_true, if_false]
    cases env.selectConfOk <;> cases env.claimOk <;>
      cases env.clearStatusOk <;> simp

/-- C10: `disconnect` is idempotent and total: it always leaves the device
field null and always invokes the disconnect notification; it calls `close`
on the transport exactly when the device field is non-null and the device is
open; a second consecutive `disconnect` performs no close, so the handle is
never closed twice. -/
theorem disconnect_idempotent_total (s : OState) :
    (disconnect s).device = none ∧
    (disconnect s).notifyCount = s.notifyCount + 1 ∧
    (disconnect s).closeCount = s.closeCount +
      (match s.device with
       | some d => if d.opened then 1 else 0
       | none => 0) ∧
    (disconnect (disconnect s)).closeCount = (disconnect s).closeCount ∧
    (disconnect (disconnect s)).device = none := by
  obtain ⟨h1, h2, h3⟩ := disconnect_state s
  obtain ⟨g1, g2, g3⟩ := disconnect_state (disconnect s)
  refine ⟨h1, h2, h3, ?_, g1⟩
  rw [g3, h1]
  rfl

/-- C1: for every run of `runUpdateSequence` in which the configuration step
succeeds and the Device Handle was acquired (`navigator.usb` present and
`requestDevice` resolved), if the run fails then `disconnect` has been
invoked before the error is returned — the final device field is null, the
disconnect notification fired exactly once, and the handle was closed
exactly once when `open()` had succeeded (and never otherwise) — and the
returned error is the rejection of the failing stage: whichever of connect,
erase, program or detach failed first. -/
theorem runUpdateSequence_disconnects_on_failure (file : List Nat)
    (fs ps : SizeSpec) (env : RunEnv) (s0 : OState) (e : DfuErr)
    (hcfg : (setFlashAndPageSizes fs ps s0).2 = Except.ok ())
    (husb : env.conn.usbAvailable = true)
    (hreq : env.conn.requestDeviceOk = true)
    (hfail : (runUpdateSequence file fs ps env s0).2 = Except.error e) :
    (runUpdateSequence file fs ps env s0).1.device = none ∧
    (runUpdateSequence file fs ps env s0).1.notifyCount =
      s0.notifyCount + 1 ∧
    (runUpdateSequence file fs ps env s0).1.closeCount =
      s0.closeCount + (if env.conn.openOk then 1 else 0) ∧
    (∀ e', (connect env.conn (setFlashAndPageSizes fs ps s0).1).2 =
        Except.error e' → e = e') ∧
    ((connect env.conn (setFlashAndPageSizes fs ps s0).1).2 =
        Except.ok () →
      (∀ e', (eraseRun env.eraseEnv
          (connect env.conn (setFlashAndPageSizes fs ps s0).1).1.flashEnd
          (connect env.conn
            (setFlashAndPageSizes fs ps s0).1).1.pageSize).2 =
          Except.error e' → e = e') ∧
      ((eraseRun env.eraseEnv
          (connect env.conn (setFlashAndPageSizes fs ps s0).1).1.flashEnd
          (connect env.conn
            (setFlashAndPageSizes fs ps s0).1).1.pageSize).2 =
          Except.ok () →
        (∀ e', (programRun env.progEnv file
            (connect env.conn
              (setFlashAndPageSizes fs ps s0).1).1.flashEnd).2 =
            Except.error e' → e = e') ∧
        ((programRun env.progEnv file
            (connect env.conn
              (setFlashAndPageSizes fs ps s0).1).1.flashEnd).2 =
            Except.ok () →
          ∀ e', (detachRun env.detachEnv).2 = Except.error e' →
            e = e'))) := by
  have hc : setFlashAndPageSizes fs ps s0 =
      ((setFlashAndPageSizes fs ps s0).1, Except.ok ()) :=
    Prod.ext rfl hcfg
  obtain ⟨hpd, hpc, hpn⟩ := setFlashAndPageSizes_preserves fs ps s0
  have hk1 := connect_state env.conn (setFlashAndPageSizes fs ps s0).1 husb
    hreq
  have hstate :
      (disconnect
        (connect env.conn (setFlashAndPageSizes fs ps s0).1).1).device =
        none ∧
      (disconnect
        (connect env.conn
          (setFlashAndPageSizes fs ps s0).1).1).notifyCount =
        s0.notifyCount + 1 ∧
      (disconnect
        (connect env.conn (setFlashAndPageSizes fs ps s0).1).1).closeCount =
        s0.closeCount + (if env.conn.openOk then 1 else 0) := by
    rw [hk1]
    obtain ⟨d1, d2, d3⟩ := disconnect_state
      { (setFlashAndPageSizes fs ps s0).1 with
          device := some { opened := env.conn.openOk } }
    refine ⟨d1, ?_, ?_⟩
    · rw [d2]
      dsimp only
      rw [hpn]
    · rw [d3]
      dsimp only
      rw [hpc]
  unfold runUpdateSequence at hfail ⊢
  rw [hc] at hfail ⊢
  dsimp only at hfail ⊢
  rcases hk2 : (connect env.conn (setFlashAndPageSizes fs ps s0).1).2 with
    ek | uk <;> rw [hk2] at hfail <;> dsimp only at hfail ⊢
  · simp only [Except.error.injEq] at hfail
    refine ⟨hstate.1, hstate.2.1, hstate.2.2, ?_, ?_⟩
    · intro e' h
      simp only [Except.error.injEq] at h
      rw [← hfail, ← h]
    · intro hok
      exact absurd hok (by simp)
  · rcases he : (eraseRun env.eraseEnv
        (connect env.conn (setFlashAndPageSizes fs ps s0).1).1.flashEnd
        (connect env.conn (setFlashAndPageSizes fs ps s0).1).1.pageSize).2
      with ee | ue <;> rw [he] at hfail <;> dsimp only at hfail ⊢
    · simp only [Except.error.injEq] at hfail
      refine ⟨hstate.1, hstate.2.1, hstate.2.2, ?_, ?_⟩
      · intro e' h
        exact absurd h (by simp)
      · intro _
        refine ⟨?_, ?_⟩
        · intro e' h
          simp only [Except.error.injEq] at h
          rw [← hfail, ← h]
        · intro hok
          exact absurd hok (by simp)
    · rcases hp : (programRun env.progEnv file
          (connect env.conn (setFlashAndPageSizes fs ps s0).1).1.flashEnd).2
        with ep | up <;> rw [hp] at hfail <;> dsimp only at hfail ⊢
      · simp only [Except.error.injEq] at hfail
        refine ⟨hstate.1, hstate.2.1, hstate.2.2, ?_, ?_⟩
        · intro e' h
          exact absurd h (by simp)
        · intro _
          refine ⟨?_, ?_⟩
          · intro e' h
            exact absurd h (by simp)
          · intro _
            refine ⟨?_, ?_⟩
            · intro e' h
              simp only [Except.error.injEq] at h
              rw [← hfail, ← h]
            · intro hok
              exact absurd hok (by simp)
      · rcases hd : (detachRun env.detachEnv).2 with ed | ud <;>
          rw [hd] at hfail <;> dsimp only at hfail ⊢
        · simp only [Except.error.injEq] at hfail
          refine ⟨hstate.1, hstate.2.1, hstate.2.2, ?_, ?_⟩
          · intro e' h
            exact absurd h (by simp)
          · intro _
            refine ⟨?_, ?_⟩
            · intro e' h
              exact absurd h (by simp)
            · intro _
              refine ⟨?_, ?_⟩
              · intro e' h
                exact absurd h (by simp)
              · intro _ e' h
                simp only [Except.error.injEq] at h
                rw [← hfail, ← h]
        · exact absurd hfail (by simp)

/-- C1 witness: a run whose `claimInterface` rejects: the result is that
stage's rejection, the device field is released, the notification fired
once, and the opened handle was closed once. -/
theorem runUpdateSequence_disconnects_on_failure_witness :
    (setFlashAndPageSizes (SizeSpec.num 131072) (SizeSpec.num 128)
        initState).2 = Except.ok () ∧
    (runUpdateSequence [] (SizeSpec.num 131072) (SizeSpec.num 128)
        ⟨⟨true, true, true, true, false, true⟩, fun _ => okResp,
          fun _ => okResp, fun _ => okResp⟩ initState).2 =
      Except.error DfuErr.claimInterfaceFailed ∧
    (runUpdateSequence [] (SizeSpec.num 131072) (SizeSpec.num 128)
        ⟨⟨true, true, true, true, false, true⟩, fun _ => okResp,
          fun _ => okResp, fun _ => okResp⟩ initState).1.device = none ∧
    (runUpdateSequence [] (SizeSpec.num 131072) (SizeSpec.num 128)
        ⟨⟨true, true, true, true, false, true⟩, fun _ => okResp,
          fun _ => okResp, fun _ => okResp⟩ initState).1.notifyCount = 1 ∧
    (runUpdateSequence [] (SizeSpec.num 131072) (SizeSpec.num 128)
        ⟨⟨true, true, true, true, false, true⟩, fun _ => okResp,
          fun _ => okResp, fun _ => okResp⟩ initState).1.closeCount = 1 :=
  have h := runUpdateSequence_disconnects_on_failure []
    (SizeSpec.num 131072) (SizeSpec.num 128)
    ⟨⟨true, true, true, true, false, true⟩, fun _ => okResp,
      fun _ => okResp, fun _ => okResp⟩ initState
    DfuErr.claimInterfaceFailed (by decide) rfl rfl (by decide)
  ⟨by decide, by decide, h.1, h.2.1, h.2.2.1⟩

end StmDfu
